import Mathlib

/-!
Shallow embedding of the authentication and authorization core of a small
FastAPI user-management service (src/security.py, src/models.py,
src/schemas.py, src/routers/users.py), together with theorems settling the
spec's claims about it.

Modelling conventions:
* Machine time is an `Int` of Unix epoch seconds; the wall clock, the DB id
  sequence and the bcrypt salt randomness are passed as explicit parameters.
* A Python handler outcome is `HRes α`: a normal return, an `HTTPException`
  with a status code (FastAPI renders it as that status), or any other
  uncaught exception, identified by its class name (FastAPI renders it as a
  500, not as the raised-with status).
* Third-party library calls that the source delegates to are modelled by
  their documented behaviour: passlib's `CryptContext.verify` raises
  `UnknownHashError` when the hash string cannot be identified as any
  configured scheme; `jose.jwt.decode` raises a `JWTError` (which the source
  catches) on bad signature, malformed structure, wrong algorithm, or an
  `exp` claim in the past, and otherwise returns the claims object, with no
  requirement that any particular claim be present; pydantic model
  construction raises `ValidationError` (which the source does not catch)
  when a required field is missing.
-/

namespace PracticeFastapi

/-- Outcome of running a Python handler: normal value, raised
`HTTPException` with a status code, or another uncaught exception named by
its class. -/
inductive HRes (α : Type) where
  | ok (a : α)
  | http (code : Nat)
  | exc (e : String)
deriving Repr, DecidableEq

/-- Model of a password-hash string as consumed by passlib.  `bcrypt pw
salt` stands for a well-formed bcrypt hash of plaintext `pw` produced with
salt `salt`; `unknown s` stands for any string that passlib cannot identify
as a hash of a configured scheme. -/
inductive HashStr where
  | bcrypt (pw : String) (salt : Nat)
  | unknown (s : String)
deriving Repr, DecidableEq

/-- Account row, from `models.py` (`User`): id (PK), name, email (unique),
hashed_password, role (default "user"), is_active (default True),
created_at. -/
structure User where
  id : Int
  name : String
  email : String
  hashed_password : HashStr
  role : String
  is_active : Bool
  created_at : Int
deriving Repr, DecidableEq

/-- Claims object as returned by `jose.jwt.decode`: each registered claim
may be absent.  (Only the four claims the application reads are modelled;
pydantic ignores extra keys.) -/
structure Claims where
  user_id : Option Int
  email : Option String
  role : Option String
  exp : Option Int
deriving Repr, DecidableEq

/-- A JWT string, seen through what `jose.jwt.decode` can recover from it:
either a token correctly signed with some key under some algorithm and
carrying a claims object, or any other string (malformed structure, broken
signature, truncated base64, ...). -/
inductive Token where
  | signed (claims : Claims) (key : String) (alg : String)
  | garbage (s : String)
deriving Repr, DecidableEq

/-- `schemas.py` `TokenPayload`: user_id, email, role, exp all required. -/
structure TokenPayload where
  user_id : Int
  email : String
  role : String
  exp : Int
deriving Repr, DecidableEq

/-- `security.py` constant. -/
def SECRET_KEY : String := "your-secret-key-change-in-production"

/-- `security.py` constant. -/
def ALGORITHM : String := "HS256"

/-- `security.py` constant: token lifetime of 60 minutes. -/
def ACCESS_TOKEN_EXPIRE_MINUTES : Int := 60

/-- `security.py` `hash_password`: delegate to passlib bcrypt; the salt is
drawn by the library, here an explicit parameter. -/
def hash_password (password : String) (salt : Nat) : HashStr :=
  .bcrypt password salt

/-- `security.py` `verify_password`: delegate to passlib
`CryptContext.verify`.  For a well-formed bcrypt hash the library returns
whether the plaintext matches; for a string it cannot identify as any
configured scheme it raises `UnknownHashError` (a `ValueError`), which the
source does not catch (`Except.error` with the exception class name models
that). -/
def verify_password (plain_password : String) (hashed_password : HashStr) :
    Except String Bool :=
  match hashed_password with
  | .bcrypt pw _ => .ok (plain_password == pw)
  | .unknown _ => .error "UnknownHashError"

/-- `security.py` `create_access_token`: claims
`{user_id, email, role, exp}` with `exp = now + expires_delta` (seconds)
when a truthy `expires_delta` is given, else `now + 60 minutes`; signed
with `SECRET_KEY` under HS256.  Python truthiness: `timedelta(0)` is falsy,
so a zero delta also falls back to the 60-minute default. -/
def create_access_token (user_id : Int) (email : String) (role : String)
    (expires_delta : Option Int) (now : Int) : Token :=
  let expire : Int :=
    match expires_delta with
    | some d => if d == 0 then now + ACCESS_TOKEN_EXPIRE_MINUTES * 60 else now + d
    | none => now + ACCESS_TOKEN_EXPIRE_MINUTES * 60
  .signed ⟨some user_id, some email, some role, some expire⟩ SECRET_KEY ALGORITHM

/-- `jose.jwt.decode token key algorithms=[alg]` at wall-clock `now`:
`none` models a raised `JWTError` (bad structure, signature mismatch,
unaccepted algorithm, or an `exp` claim with `exp < now`); otherwise the
claims object is returned, whether or not `exp` is present. -/
def joseDecode (t : Token) (key : String) (alg : String) (now : Int) :
    Option Claims :=
  match t with
  | .garbage _ => none
  | .signed c k a =>
    if k == key && a == alg then
      match c.exp with
      | some e => if e < now then none else some c
      | none => some c
    else none

/-- `security.py` `verify_token`: `jwt.decode` inside `try/except JWTError`
(returning `None` on that error), then `TokenPayload(**payload)`.  The
pydantic constructor raises `ValidationError` when a required field is
absent from the decoded claims, and `ValidationError` is not a `JWTError`,
so it propagates out of `verify_token` (`Except.error` with the exception
class name models that). -/
def verify_token (token : Token) (now : Int) :
    Except String (Option TokenPayload) :=
  match joseDecode token SECRET_KEY ALGORITHM now with
  | none => .ok none
  | some c =>
    match c.user_id, c.email, c.role, c.exp with
    | some u, some e, some r, some x => .ok (some ⟨u, e, r, x⟩)
    | _, _, _, _ => .error "ValidationError"

/-- `security.py` `get_current_user`: verify the token (401 when it reports
invalid), load the user by the payload's `user_id` (first row), 401 when
absent or inactive, else return the live row. -/
def get_current_user (token : Token) (db : List User) (now : Int) :
    HRes User :=
  match verify_token token now with
  | .error e => .exc e
  | .ok none => .http 401
  | .ok (some payload) =>
    match db.find? (fun u => u.id == payload.user_id) with
    | none => .http 401
    | some u => if u.is_active then .ok u else .http 401

/-- `security.py` `get_current_admin`: 403 unless the resolved user's role
is "admin". -/
def get_current_admin (current_user : User) : HRes User :=
  if current_user.role != "admin" then .http 403 else .ok current_user

/-- `schemas.py` `UserResponse`: the outward account representation —
id, name, email, role, is_active, created_at.  It declares no
hashed_password field. -/
structure UserResponse where
  id : Int
  name : String
  email : String
  role : String
  is_active : Bool
  created_at : Int
deriving Repr, DecidableEq

/-- Conversion an ORM `User` row undergoes when rendered through
`response_model=UserResponse` (`from_attributes = True`): only the six
declared fields are read. -/
def toResponse (u : User) : UserResponse :=
  ⟨u.id, u.name, u.email, u.role, u.is_active, u.created_at⟩

/-- `schemas.py` `TokenResponse`: login response body. -/
structure TokenResponse where
  access_token : Token
  token_type : String
  user : UserResponse
deriving Repr, DecidableEq

/-- `schemas.py` `LoginRequest`. -/
structure LoginRequest where
  email : String
  password : String
deriving Repr, DecidableEq

/-- `schemas.py` `UserCreate` after pydantic parsing: name, email,
password.  The model declares no role field. -/
structure UserCreate where
  name : String
  email : String
  password : String
deriving Repr, DecidableEq

/-- A raw create-request JSON body: the three declared fields plus an
optional `role` key the client may have supplied. -/
structure RawUserCreate where
  name : String
  email : String
  password : String
  role : Option String
deriving Repr, DecidableEq

/-- Pydantic validation of a create body against `UserCreate`: the model
declares no `role` field and by default ignores unknown keys, so any
supplied role value is dropped. -/
def parseUserCreate (b : RawUserCreate) : UserCreate :=
  ⟨b.name, b.email, b.password⟩

/-- `schemas.py` `UserUpdate`: every field optional. -/
structure UserUpdate where
  name : Option String
  email : Option String
  password : Option String
  role : Option String
deriving Repr, DecidableEq

/-- JSON-like value for rendered response bodies. -/
inductive JVal where
  | jint (i : Int)
  | jstr (s : String)
  | jbool (b : Bool)
  | jtok (t : Token)
  | jobj (fields : List (String × JVal))

/-- JSON serialization of a `UserResponse`: exactly the declared fields,
in declaration order. -/
def renderUserResponse (r : UserResponse) : List (String × JVal) :=
  [("id", .jint r.id), ("name", .jstr r.name), ("email", .jstr r.email),
   ("role", .jstr r.role), ("is_active", .jbool r.is_active),
   ("created_at", .jint r.created_at)]

/-- JSON serialization of a `TokenResponse`. -/
def renderTokenResponse (t : TokenResponse) : List (String × JVal) :=
  [("access_token", .jtok t.access_token),
   ("token_type", .jstr t.token_type),
   ("user", .jobj (renderUserResponse t.user))]

/-- Replace the first row whose id is `uid` (the row
`query(User).filter(User.id == uid).first()` returned and the session then
flushed). -/
def replaceFirst (db : List User) (uid : Int) (nu : User) : List User :=
  match db with
  | [] => []
  | u :: rest => if u.id == uid then nu :: rest else u :: replaceFirst rest uid nu

/-- Remove the first row whose id is `uid` (the row `first()` returned and
`db.delete` removed). -/
def deleteFirst (db : List User) (uid : Int) : List User :=
  match db with
  | [] => []
  | u :: rest => if u.id == uid then rest else u :: deleteFirst rest uid

/-- `routers/users.py` `login`: look the user up by email; 401 when absent
or when the password does not verify; 403 when the account is inactive;
otherwise issue a token (default expiry) and return it with the user's
rendered record. -/
def login (req : LoginRequest) (db : List User) (now : Int) :
    HRes TokenResponse :=
  match db.find? (fun u => u.email == req.email) with
  | none => .http 401
  | some user =>
    match verify_password req.password user.hashed_password with
    | .error e => .exc e
    | .ok false => .http 401
    | .ok true =>
      if user.is_active then
        .ok ⟨create_access_token user.id user.email user.role none now,
             "bearer", toResponse user⟩
      else .http 403

/-- `routers/users.py` `create_user` (POST /users, no authentication):
hash the password, insert a row with `role = "user"` (and the column
defaults `is_active = True`, `created_at = now`); a duplicate email
surfaces as `IntegrityError`, rolled back into a 409. -/
def create_user (body : RawUserCreate) (db : List User) (salt : Nat)
    (freshId : Int) (now : Int) : HRes (List User × UserResponse) :=
  let uc := parseUserCreate body
  if db.any (fun u => u.email == uc.email) then .http 409
  else
    let nu : User :=
      ⟨freshId, uc.name, uc.email, hash_password uc.password salt,
       "user", true, now⟩
    .ok (db ++ [nu], toResponse nu)

/-- `routers/users.py` `get_my_profile` (GET /users/me): return the
resolved user. -/
def get_my_profile (current_user : User) : HRes UserResponse :=
  .ok (toResponse current_user)

/-- `routers/users.py` `read_users` (GET /users): admin-gated listing of
every row. -/
def read_users (current_user : User) (db : List User) :
    HRes (List UserResponse) :=
  match get_current_admin current_user with
  | .ok _ => .ok (db.map toResponse)
  | .http c => .http c
  | .exc e => .exc e

/-- `routers/users.py` `read_user` (GET /users/id): load the target (404
when absent), then 403 unless the actor is admin or the target is the
actor, else return the target. -/
def read_user (user_id : Int) (current_user : User) (db : List User) :
    HRes UserResponse :=
  match db.find? (fun u => u.id == user_id) with
  | none => .http 404
  | some db_user =>
    if current_user.role != "admin" && current_user.id != user_id then .http 403
    else .ok (toResponse db_user)

/-- Field application step of `update_user`: name, email, password (hashed)
from the request when present; role only when present and the actor is
admin. -/
def applyUpdate (u : User) (upd : UserUpdate) (current_user : User)
    (salt : Nat) : User :=
  { u with
    name := upd.name.getD u.name
    email := upd.email.getD u.email
    hashed_password :=
      match upd.password with
      | some p => hash_password p salt
      | none => u.hashed_password
    role :=
      match upd.role with
      | some r => if current_user.role == "admin" then r else u.role
      | none => u.role }

/-- Commit-time unique-email violation for `update_user`: the requested new
email already belongs to a different row. -/
def emailConflict (db : List User) (upd : UserUpdate) (uid : Int) : Bool :=
  match upd.email with
  | some e => db.any (fun u => u.email == e && u.id != uid)
  | none => false

/-- `routers/users.py` `update_user` (PUT /users/id): load the target (404
when absent); 403 when the actor is neither admin nor the target; 403 when
a non-admin supplies the role field; apply the fields (role only for an
admin); commit, with a duplicate email rolled back into a 409. -/
def update_user (user_id : Int) (upd : UserUpdate) (current_user : User)
    (db : List User) (salt : Nat) : HRes (List User × UserResponse) :=
  match db.find? (fun u => u.id == user_id) with
  | none => .http 404
  | some db_user =>
    if current_user.role != "admin" && current_user.id != user_id then .http 403
    else if current_user.role != "admin" && upd.role.isSome then .http 403
    else
      let nu := applyUpdate db_user upd current_user salt
      if emailConflict db upd user_id then .http 409
      else .ok (replaceFirst db user_id nu, toResponse nu)

/-- `routers/users.py` `delete_user` handler body (the admin gate is the
`get_current_admin` dependency, see `delete_endpoint`): 400 when the admin
targets itself, 404 when the target is absent, else remove the row. -/
def delete_user (user_id : Int) (admin : User) (db : List User) :
    HRes (List User) :=
  if admin.id == user_id then .http 400
  else
    match db.find? (fun u => u.id == user_id) with
    | none => .http 404
    | some _ => .ok (deleteFirst db user_id)

/-- DELETE /users/id as wired by FastAPI: the `get_current_admin`
dependency runs over the already-resolved actor before the handler body. -/
def delete_endpoint (actor : User) (user_id : Int) (db : List User) :
    HRes (List User) :=
  match get_current_admin actor with
  | .ok admin => delete_user user_id admin db
  | .http c => .http c
  | .exc e => .exc e

/-- `routers/users.py` `create_user_by_admin` (POST /users/admin/create):
the `get_current_admin` gate, then the same body as `create_user` — the
password is hashed and the row is inserted with `role = "user"` no matter
what the body carried. -/
def create_user_by_admin (actor : User) (body : RawUserCreate)
    (db : List User) (salt : Nat) (freshId : Int) (now : Int) :
    HRes (List User × UserResponse) :=
  match get_current_admin actor with
  | .http c => .http c
  | .exc e => .exc e
  | .ok _ =>
    let uc := parseUserCreate body
    if db.any (fun u => u.email == uc.email) then .http 409
    else
      let nu : User :=
        ⟨freshId, uc.name, uc.email, hash_password uc.password salt,
         "user", true, now⟩
      .ok (db ++ [nu], toResponse nu)

/-! ### Claim theorems -/

/-- C2: the claim says token decoding is total and never raises, returning
the invalid marker for anything not a validly signed, unexpired,
well-formed token.  The code violates it: a token correctly signed with
`SECRET_KEY` under HS256 whose payload object is empty passes `jwt.decode`
(jose does not require any particular claim), and then
`TokenPayload(**payload)` raises a pydantic `ValidationError`, which is not
a `JWTError` and therefore escapes `verify_token` instead of yielding
`None`. -/
theorem c2_verify_token_raises_on_missing_claims :
    verify_token (.signed ⟨none, none, none, none⟩ SECRET_KEY ALGORITHM) 0
      = .error "ValidationError"
    ∧ (Except.error "ValidationError"
        ≠ (.ok none : Except String (Option TokenPayload))) :=
  ⟨rfl, by simp⟩

/-- C3 counterexample: the claim says password verification is total and
returns false on a structurally invalid hash string; in fact passlib's
`CryptContext.verify` raises `UnknownHashError` for a hash string it cannot
identify, and `verify_password` does not catch it. -/
theorem c3_counterexample :
    verify_password "password123" (.unknown "not-a-hash")
      = .error "UnknownHashError"
    ∧ (Except.error "UnknownHashError" ≠ (.ok false : Except String Bool)) :=
  ⟨rfl, by simp⟩

/-- C3 amended: for a well-formed bcrypt hash, verification returns true
exactly when the plaintext matches the hashed password and never raises;
for a structurally invalid hash string it raises `UnknownHashError` rather
than returning false. -/
theorem c3_verify_password_wellformed_exact
    (plain pw : String) (salt : Nat) (s : String) :
    verify_password plain (hash_password pw salt) = .ok (plain == pw)
    ∧ verify_password plain (.unknown s) = .error "UnknownHashError" :=
  ⟨rfl, rfl⟩

/-- C3 amended witness: concrete instances of both branches. -/
theorem c3_verify_password_wellformed_exact_applied :
    verify_password "password123" (hash_password "password123" 4) = .ok true
    ∧ verify_password "password123" (.unknown "zz") = .error "UnknownHashError" :=
  c3_verify_password_wellformed_exact "password123" "password123" 4 "zz"

/-- C4: decoding a token issued with the default ttl, at any instant `t` no
later than its expiry, recovers exactly the issued user_id, email and role,
and an `exp` equal to the issuance time plus 60 minutes, stored as an
absolute Unix timestamp. -/
theorem c4_decode_of_issue_roundtrip
    (uid : Int) (email role : String) (now t : Int)
    (h : t ≤ now + 3600) :
    verify_token (create_access_token uid email role none now) t
      = .ok (some ⟨uid, email, role, now + 3600⟩) := by
  have hlt : ¬ (now + 3600 < t) := by omega
  simp [verify_token, create_access_token, joseDecode,
    ACCESS_TOKEN_EXPIRE_MINUTES, hlt]

/-- C4 witness: concrete instance of the round trip. -/
theorem c4_decode_of_issue_roundtrip_applied :
    verify_token (create_access_token 7 "u@example.com" "user" none 1000) 4000
      = .ok (some ⟨7, "u@example.com", "user", 1000 + 3600⟩) :=
  c4_decode_of_issue_roundtrip 7 "u@example.com" "user" 1000 4000 (by decide)

/-- C1 counterexample: the claim says resolution fails with 401 whenever
the token does not decode to a valid payload; but on a token correctly
signed with `SECRET_KEY` whose payload object is empty, `get_current_user`
propagates the pydantic `ValidationError` raised inside `verify_token`
(rendered as a 500) instead of raising the 401 `HTTPException`. -/
theorem c1_counterexample :
    get_current_user (.signed ⟨none, none, none, none⟩ SECRET_KEY ALGORITHM)
      [⟨1, "Alice", "a@example.com", .bcrypt "pw" 1, "admin", true, 0⟩] 0
      = .exc "ValidationError"
    ∧ (HRes.exc "ValidationError" ≠ (.http 401 : HRes User)) :=
  ⟨rfl, by simp⟩

/-- C1 amended: for every token on which decoding completes (returning a
payload or the invalid marker), resolution fails with 401 when decoding
returns invalid, when no account with the payload's user_id exists, or when
that account is inactive; on success it returns the live account record
loaded from the store (a member of the store, currently active), and the
resolved account does not depend on the role embedded in the token's claim.
A validly signed token whose payload lacks required claims instead makes
resolution propagate a validation error. -/
theorem c1_resolve_uses_live_account (tok : Token) (db : List User) (now : Int) :
    (verify_token tok now = .ok none → get_current_user tok db now = .http 401)
    ∧ (∀ p, verify_token tok now = .ok (some p) →
        (db.find? (fun u => u.id == p.user_id) = none →
          get_current_user tok db now = .http 401)
        ∧ (∀ w, db.find? (fun u => u.id == p.user_id) = some w →
            (w.is_active = false → get_current_user tok db now = .http 401)
            ∧ (w.is_active = true → get_current_user tok db now = .ok w)))
    ∧ (∀ u, get_current_user tok db now = .ok u → u ∈ db ∧ u.is_active = true)
    ∧ (∀ i e ro x r2,
        tok = .signed ⟨some i, some e, some ro, some x⟩ SECRET_KEY ALGORITHM →
        get_current_user (.signed ⟨some i, some e, some r2, some x⟩ SECRET_KEY ALGORITHM)
            db now
          = get_current_user tok db now) := by
  refine ⟨?_, ?_, ?_, ?_⟩
  · intro h
    simp [get_current_user, h]
  · intro p hp
    refine ⟨?_, ?_⟩
    · intro hf
      simp [get_current_user, hp, hf]
    · intro w hf
      refine ⟨?_, ?_⟩ <;> intro ha <;> simp [get_current_user, hp, hf, ha]
  · intro u hok
    unfold get_current_user at hok
    cases hv : verify_token tok now with
    | error e => rw [hv] at hok; simp at hok
    | ok op =>
      rw [hv] at hok
      cases op with
      | none => simp at hok
      | some p =>
        dsimp only at hok
        cases hf : db.find? (fun u => u.id == p.user_id) with
        | none => rw [hf] at hok; simp at hok
        | some w =>
          rw [hf] at hok
          dsimp only at hok
          cases ha : w.is_active with
          | false => simp [ha] at hok
          | true =>
            simp only [ha, if_true] at hok
            cases hok
            exact ⟨List.mem_of_find?_eq_some hf, ha⟩
  · intro i e ro x r2 htok
    subst htok
    simp only [get_current_user, verify_token, joseDecode]
    by_cases hx : x < now <;> simp [hx]

/-- C1 witness: a token embedding role "user" for account 5 resolves, on a
store where account 5 currently has role "admin", to the live record with
role "admin". -/
theorem c1_resolve_uses_live_account_applied :
    get_current_user (create_access_token 5 "b@example.com" "user" none 0)
      [⟨5, "Bob", "b@example.com", .bcrypt "pw" 1, "admin", true, 0⟩] 10
      = .ok ⟨5, "Bob", "b@example.com", .bcrypt "pw" 1, "admin", true, 0⟩ :=
  (((c1_resolve_uses_live_account
        (create_access_token 5 "b@example.com" "user" none 0)
        [⟨5, "Bob", "b@example.com", .bcrypt "pw" 1, "admin", true, 0⟩]
        10).2.1
      ⟨5, "b@example.com", "user", 3600⟩ rfl).2
    ⟨5, "Bob", "b@example.com", .bcrypt "pw" 1, "admin", true, 0⟩ rfl).2 rfl

/-- Replacing the first row matching an id with a row of the same id and
role leaves the store's id-to-role association unchanged. -/
theorem map_idRole_replaceFirst :
    ∀ (db : List User) (uid : Int) (nu du : User),
      db.find? (fun u => u.id == uid) = some du →
      nu.id = du.id → nu.role = du.role →
      (replaceFirst db uid nu).map (fun u => (u.id, u.role))
        = db.map (fun u => (u.id, u.role)) := by
  intro db
  induction db with
  | nil => intro uid nu du h; simp [List.find?] at h
  | cons a rest ih =>
    intro uid nu du hfind hid hrole
    rw [List.find?_cons_eq_some] at hfind
    rcases hfind with ⟨hpa, haeq⟩ | ⟨hpa, hfind⟩
    · have hpa2 : (a.id == uid) = true := hpa
      subst haeq
      simp [replaceFirst, hpa2, hid, hrole]
    · have hpa2 : (a.id == uid) = false := by simpa using hpa
      simp only [replaceFirst, hpa2, if_false, Bool.false_eq_true, List.map_cons]
      rw [ih uid nu du hfind hid hrole]

/-- C5: when the actor's role is not admin, an update request whose body
includes the role field is denied with 403 whenever the target exists —
even when the requested role equals the current one — and whatever a
non-admin update does, the id-to-role association of the store is
unchanged, so the role field changes only under an admin actor. -/
theorem c5_role_update_admin_only
    (user_id : Int) (upd : UserUpdate) (current_user : User)
    (db : List User) (salt : Nat)
    (hrole : current_user.role ≠ "admin") :
    ((db.find? (fun u => u.id == user_id)).isSome → upd.role.isSome →
      update_user user_id upd current_user db salt = .http 403)
    ∧ (∀ db2 resp,
        update_user user_id upd current_user db salt = .ok (db2, resp) →
        db2.map (fun u => (u.id, u.role)) = db.map (fun u => (u.id, u.role))) := by
  have hb : (current_user.role != "admin") = true := bne_iff_ne.mpr hrole
  constructor
  · intro hs hupd
    cases hf : db.find? (fun u => u.id == user_id) with
    | none => rw [hf] at hs; simp at hs
    | some du =>
      by_cases hid : (current_user.id != user_id) = true
      · simp [update_user, hf, hb, hid]
      · simp [update_user, hf, hb, hid, hupd]
  · intro db2 resp hok
    unfold update_user at hok
    cases hf : db.find? (fun u => u.id == user_id) with
    | none => rw [hf] at hok; simp at hok
    | some du =>
      rw [hf] at hok
      dsimp only at hok
      by_cases hid : (current_user.id != user_id) = true
      · simp [hb, hid] at hok
      · cases hr : upd.role with
        | some r => simp [hb, hid, hr] at hok
        | none =>
          simp only [hb, hid, hr, Bool.true_and, Bool.and_false,
            Option.isSome_none, if_false, Bool.false_eq_true] at hok
          split at hok
          · simp at hok
          · cases hok
            exact map_idRole_replaceFirst db user_id _ du hf rfl
              (by simp [applyUpdate, hr])

/-- C5 witness: a non-admin actor updating itself with a role field equal
to its current role is denied with 403. -/
theorem c5_role_update_admin_only_applied :
    update_user 5 ⟨none, none, none, some "user"⟩
      ⟨5, "Bob", "b@example.com", .bcrypt "pw" 1, "user", true, 0⟩
      [⟨1, "Alice", "a@example.com", .bcrypt "pw" 1, "admin", true, 0⟩,
       ⟨5, "Bob", "b@example.com", .bcrypt "pw" 1, "user", true, 0⟩] 3
      = .http 403 :=
  (c5_role_update_admin_only 5 ⟨none, none, none, some "user"⟩
      ⟨5, "Bob", "b@example.com", .bcrypt "pw" 1, "user", true, 0⟩
      [⟨1, "Alice", "a@example.com", .bcrypt "pw" 1, "admin", true, 0⟩,
       ⟨5, "Bob", "b@example.com", .bcrypt "pw" 1, "user", true, 0⟩] 3
      (by decide)).1 rfl rfl

/-- C6: deletion is permitted only for an admin actor targeting an id other
than its own: a non-admin actor is denied 403 by the `get_current_admin`
gate, an admin targeting its own id is denied 400 with no account removed,
and a successful deletion implies the actor was an admin targeting a
different id. -/
theorem c6_delete_admin_only_no_self (actor : User) (user_id : Int)
    (db : List User) :
    (actor.role ≠ "admin" → delete_endpoint actor user_id db = .http 403)
    ∧ (actor.role = "admin" → actor.id = user_id →
        delete_endpoint actor user_id db = .http 400)
    ∧ (∀ db2, delete_endpoint actor user_id db = .ok db2 →
        actor.role = "admin" ∧ actor.id ≠ user_id
          ∧ db2 = deleteFirst db user_id) := by
  refine ⟨?_, ?_, ?_⟩
  · intro h
    simp [delete_endpoint, get_current_admin, bne_iff_ne.mpr h]
  · intro h1 h2
    simp [delete_endpoint, get_current_admin, delete_user, h1, h2]
  · intro db2 hok
    unfold delete_endpoint get_current_admin at hok
    by_cases hr : (actor.role != "admin") = true
    · simp [hr] at hok
    · have hre : actor.role = "admin" := by simpa using hr
      have hb : (actor.role != "admin") = false := by simp [hre]
      simp only [hb, Bool.false_eq_true, if_false] at hok
      unfold delete_user at hok
      by_cases hid : (actor.id == user_id) = true
      · simp [hid] at hok
      · have hid2 : (actor.id == user_id) = false := by simpa using hid
        have hidne : actor.id ≠ user_id := by simpa using hid2
        simp only [hid2, Bool.false_eq_true, if_false] at hok
        cases hf : db.find? (fun u => u.id == user_id) with
        | none => rw [hf] at hok; simp at hok
        | some w =>
          rw [hf] at hok
          dsimp only at hok
          cases hok
          exact ⟨hre, hidne, rfl⟩

/-- C6 witness: an admin with id 1 deleting id 1 is denied with 400. -/
theorem c6_delete_admin_only_no_self_applied :
    delete_endpoint ⟨1, "Alice", "a@example.com", .bcrypt "pw" 1, "admin", true, 0⟩
      1 [⟨1, "Alice", "a@example.com", .bcrypt "pw" 1, "admin", true, 0⟩]
      = .http 400 :=
  (c6_delete_admin_only_no_self
      ⟨1, "Alice", "a@example.com", .bcrypt "pw" 1, "admin", true, 0⟩ 1
      [⟨1, "Alice", "a@example.com", .bcrypt "pw" 1, "admin", true, 0⟩]).2.1
    rfl rfl

/-- C7: through both creation endpoints every stored account's role is
"user": any account the endpoints add to the store, and the returned
representation, carries role "user", and a role value supplied in the
request body does not change the outcome at all (pydantic's `UserCreate`
declares no role field and ignores unknown keys). -/
theorem c7_created_role_is_user (body : RawUserCreate) (actor : User)
    (db : List User) (salt : Nat) (freshId : Int) (now : Int) :
    (∀ db2 resp, create_user body db salt freshId now = .ok (db2, resp) →
      resp.role = "user" ∧ ∀ u ∈ db2, u ∈ db ∨ u.role = "user")
    ∧ (∀ db2 resp,
        create_user_by_admin actor body db salt freshId now = .ok (db2, resp) →
        resp.role = "user" ∧ ∀ u ∈ db2, u ∈ db ∨ u.role = "user")
    ∧ (∀ r, create_user { body with role := r } db salt freshId now
          = create_user body db salt freshId now)
    ∧ (∀ r, create_user_by_admin actor { body with role := r } db salt freshId now
          = create_user_by_admin actor body db salt freshId now) := by
  refine ⟨?_, ?_, fun r => rfl, fun r => rfl⟩
  · intro db2 resp hok
    unfold create_user at hok
    dsimp only at hok
    split at hok
    · simp at hok
    · cases hok
      refine ⟨rfl, ?_⟩
      intro u hu
      rcases List.mem_append.mp hu with h | h
      · exact .inl h
      · right
        cases List.mem_singleton.mp h
        rfl
  · intro db2 resp hok
    unfold create_user_by_admin get_current_admin at hok
    by_cases hr : (actor.role != "admin") = true
    · simp [hr] at hok
    · have hb : (actor.role != "admin") = false := by simpa using hr
      simp only [hb, Bool.false_eq_true, if_false] at hok
      split at hok
      · simp at hok
      · cases hok
        refine ⟨rfl, ?_⟩
        intro u hu
        rcases List.mem_append.mp hu with h | h
        · exact .inl h
        · right
          cases List.mem_singleton.mp h
          rfl

/-- C7 witness: an unauthenticated create request carrying role "admin" in
its body stores role "user" and returns role "user". -/
theorem c7_created_role_is_user_applied :
    create_user ⟨"Eve", "e@example.com", "longpass", some "admin"⟩ [] 9 10 50
      = .ok ([⟨10, "Eve", "e@example.com", .bcrypt "longpass" 9, "user", true, 50⟩],
             ⟨10, "Eve", "e@example.com", "user", true, 50⟩)
    ∧ (⟨10, "Eve", "e@example.com", "user", true, 50⟩ : UserResponse).role
        = "user" :=
  ⟨rfl,
   ((c7_created_role_is_user ⟨"Eve", "e@example.com", "longpass", some "admin"⟩
        ⟨1, "A", "a@example.com", .bcrypt "pw" 1, "admin", true, 0⟩ [] 9 10 50).1
      [⟨10, "Eve", "e@example.com", .bcrypt "longpass" 9, "user", true, 50⟩]
      ⟨10, "Eve", "e@example.com", "user", true, 50⟩ rfl).1⟩

/-- C8 counterexample: the claim says that for read, update and delete a
nonexistent target yields NotFound rather than a permission denial; but for
delete the `get_current_admin` dependency runs before the handler body, so
a non-admin actor naming a missing id receives 403, not 404. -/
theorem c8_counterexample :
    delete_endpoint ⟨5, "Bob", "b@example.com", .bcrypt "pw" 1, "user", true, 0⟩
      42 [⟨5, "Bob", "b@example.com", .bcrypt "pw" 1, "user", true, 0⟩]
      = .http 403
    ∧ (HRes.http 403 ≠ (.http 404 : HRes (List User))) :=
  ⟨rfl, by simp⟩

/-- C8 amended: for read and update the existence check precedes the
permission checks, so any actor naming a missing id receives 404; for
delete the admin gate and the self-delete check run first, so a missing id
yields 404 only to an admin targeting an id other than its own, while a
non-admin actor receives 403 and an admin naming its own (necessarily
missing-from-target) id receives 400. -/
theorem c8_notfound_before_permissions (actor : User) (user_id : Int)
    (upd : UserUpdate) (db : List User) (salt : Nat)
    (habs : db.find? (fun u => u.id == user_id) = none) :
    read_user user_id actor db = .http 404
    ∧ update_user user_id upd actor db salt = .http 404
    ∧ (actor.role = "admin" → actor.id ≠ user_id →
        delete_endpoint actor user_id db = .http 404)
    ∧ (actor.role ≠ "admin" → delete_endpoint actor user_id db = .http 403)
    ∧ (actor.role = "admin" → actor.id = user_id →
        delete_endpoint actor user_id db = .http 400) := by
  refine ⟨?_, ?_, ?_, ?_, ?_⟩
  · simp [read_user, habs]
  · simp [update_user, habs]
  · intro h1 h2
    simp [delete_endpoint, get_current_admin, delete_user, h1,
      beq_eq_false_iff_ne.mpr h2, habs]
  · intro h
    simp [delete_endpoint, get_current_admin, bne_iff_ne.mpr h]
  · intro h1 h2
    simp [delete_endpoint, get_current_admin, delete_user, h1, h2]

/-- C8 amended witness: with account 7 absent from the store, a non-admin
actor reading id 7 gets 404 while the same actor deleting id 7 gets 403. -/
theorem c8_notfound_before_permissions_applied :
    read_user 7 ⟨5, "Bob", "b@example.com", .bcrypt "pw" 1, "user", true, 0⟩
      [⟨5, "Bob", "b@example.com", .bcrypt "pw" 1, "user", true, 0⟩]
      = .http 404
    ∧ delete_endpoint ⟨5, "Bob", "b@example.com", .bcrypt "pw" 1, "user", true, 0⟩
        7 [⟨5, "Bob", "b@example.com", .bcrypt "pw" 1, "user", true, 0⟩]
      = .http 403 :=
  ⟨(c8_notfound_before_permissions
      ⟨5, "Bob", "b@example.com", .bcrypt "pw" 1, "user", true, 0⟩ 7
      ⟨none, none, none, none⟩
      [⟨5, "Bob", "b@example.com", .bcrypt "pw" 1, "user", true, 0⟩] 0 rfl).1,
   (c8_notfound_before_permissions
      ⟨5, "Bob", "b@example.com", .bcrypt "pw" 1, "user", true, 0⟩ 7
      ⟨none, none, none, none⟩
      [⟨5, "Bob", "b@example.com", .bcrypt "pw" 1, "user", true, 0⟩] 0
      rfl).2.2.2.1 (by decide)⟩

/-- C9: no outward-facing account representation carries the stored
credential hash: the rendered `UserResponse` of any account is unchanged
under any value of its stored hash, the rendered key sets of
`UserResponse` and `TokenResponse` bodies are exactly the declared fields,
and in particular no body, including the login body's nested user object,
has a "hashed_password" key. -/
theorem c9_no_credential_hash_in_responses :
    (∀ (u : User) (h : HashStr),
      toResponse { u with hashed_password := h } = toResponse u)
    ∧ (∀ r : UserResponse, (renderUserResponse r).map Prod.fst =
        ["id", "name", "email", "role", "is_active", "created_at"])
    ∧ (∀ t : TokenResponse, (renderTokenResponse t).map Prod.fst =
        ["access_token", "token_type", "user"])
    ∧ (∀ r : UserResponse,
        "hashed_password" ∉ (renderUserResponse r).map Prod.fst)
    ∧ (∀ t : TokenResponse,
        "hashed_password" ∉ (renderTokenResponse t).map Prod.fst
        ∧ "hashed_password" ∉ (renderUserResponse t.user).map Prod.fst) := by
  refine ⟨fun u h => rfl, fun r => rfl, fun t => rfl, fun r => ?_, fun t => ⟨?_, ?_⟩⟩
  · simp [renderUserResponse]
  · simp [renderTokenResponse]
  · simp [renderUserResponse]

/-- C9 witness: the rendered representation of a concrete account is
unchanged when its stored hash is replaced, and carries no
"hashed_password" key. -/
theorem c9_no_credential_hash_in_responses_applied :
    toResponse { (⟨5, "Bob", "b@example.com", .bcrypt "pw" 1, "user", true, 0⟩ : User)
        with hashed_password := .unknown "x" }
      = toResponse ⟨5, "Bob", "b@example.com", .bcrypt "pw" 1, "user", true, 0⟩
    ∧ "hashed_password" ∉
        (renderUserResponse
          (toResponse ⟨5, "Bob", "b@example.com", .bcrypt "pw" 1, "user", true, 0⟩)).map
          Prod.fst :=
  ⟨c9_no_credential_hash_in_responses.1
      ⟨5, "Bob", "b@example.com", .bcrypt "pw" 1, "user", true, 0⟩ (.unknown "x"),
   c9_no_credential_hash_in_responses.2.2.2.1
      (toResponse ⟨5, "Bob", "b@example.com", .bcrypt "pw" 1, "user", true, 0⟩)⟩

/-- C10: login of an email matching an account whose stored (well-formed)
hash the password verifies against is rejected with 403 when the account
is inactive, with no token issued; a token is issued exactly for an active
account with matching credentials; a non-matching email or password yields
401. -/
theorem c10_login_requires_active_account (req : LoginRequest)
    (db : List User) (now : Int) :
    (db.find? (fun u => u.email == req.email) = none →
      login req db now = .http 401)
    ∧ (∀ u pw salt, db.find? (fun u => u.email == req.email) = some u →
        u.hashed_password = .bcrypt pw salt →
        ((pw ≠ req.password → login req db now = .http 401)
         ∧ (pw = req.password → u.is_active = false →
            login req db now = .http 403)
         ∧ (pw = req.password → u.is_active = true →
            login req db now =
              .ok ⟨create_access_token u.id u.email u.role none now,
                   "bearer", toResponse u⟩))) := by
  constructor
  · intro h
    simp [login, h]
  · intro u pw salt hf hh
    refine ⟨?_, ?_, ?_⟩
    · intro hne
      have : (req.password == pw) = false := beq_eq_false_iff_ne.mpr (Ne.symm hne)
      simp [login, hf, verify_password, hh, this]
    · intro heq ha
      subst heq
      simp [login, hf, verify_password, hh, ha]
    · intro heq ha
      subst heq
      simp [login, hf, verify_password, hh, ha]

/-- C10 witness: with matching credentials against an inactive account the
login is rejected with 403. -/
theorem c10_login_requires_active_account_applied :
    login ⟨"b@example.com", "password123"⟩
      [⟨5, "Bob", "b@example.com", .bcrypt "password123" 1, "user", false, 0⟩]
      100 = .http 403 :=
  ((c10_login_requires_active_account ⟨"b@example.com", "password123"⟩
      [⟨5, "Bob", "b@example.com", .bcrypt "password123" 1, "user", false, 0⟩]
      100).2
    ⟨5, "Bob", "b@example.com", .bcrypt "password123" 1, "user", false, 0⟩
    "password123" 1 rfl rfl).2.1 rfl rfl

end PracticeFastapi
